import Mathlib

/-!
Verification of the `wpt.py` visual-regression harness of the blitz repository.

The script is a sequential control loop: enumerate candidate test files under
`css/css-flexbox`, filter out reference and tentative files by filename, and for
each remaining file invoke an external renderer on the test URL, save the actual
screenshot, parse the test HTML for a `link[rel=match]` element, invoke the
renderer on the reference URL, save the expected screenshot, compare the two
images with an external pixel-matching routine and log one PASS, FAIL or SKIP
line per processed case.

The embedding below models the loop body (`main`'s for-loop) as a function from
an environment oracle (renderer outcomes per URL, screenshot contents, parse
results, filesystem write outcomes) to a chronological trace of observable
events (logger lines, renderer invocations, artifact writes, comparator calls).
Exceptions that the Python code does not catch are modelled with `Except`: an
uncaught exception aborts the whole run.  External library routines that the
script consumes as black boxes (`pixelmatch`, `os.path.relpath`, substring and
suffix tests) are modelled at the level the script relies on, each with a
comment stating the modelling.
-/

namespace Wpt

/-- An RGBA pixel value (red, green, blue, alpha). -/
abbrev Pixel := Nat × Nat × Nat × Nat

/-- A decoded raster image: dimensions plus row-major pixel data
(the shape of a PIL `Image` as used by the script). -/
structure Image where
  width : Nat
  height : Nat
  data : List Pixel
deriving DecidableEq

/-- Modelled from the spec: the external pixel-matching routine (`pixelmatch`)
as configured by the script — zero colour-difference threshold, anti-aliased
pixels included (`includeAA=True`), mask-only diff (`diff_mask=True`).  With a
zero threshold and no anti-aliasing exemption, the reported mismatched-pixel
count is the number of pixel positions at which the two images differ. -/
def pixelmatchCount (img1 img2 : Image) : Nat :=
  (img1.data.zip img2.data).countP fun p => decide (p.1 ≠ p.2)

/-- Modelled from the spec: the mask-only diff image `pixelmatch` draws into
the supplied canvas — the size of the first input, mismatching positions drawn
opaque, matching positions left transparent. -/
def diffMask (img1 img2 : Image) : Image :=
  { width := img1.width, height := img1.height,
    data := (img1.data.zip img2.data).map fun p =>
      if p.1 ≠ p.2 then (255, 0, 0, 255) else (0, 0, 0, 0) }

/-- `create_diff_image_or_none(img1, img2)` from `wpt.py`: run `pixelmatch`
with `threshold=0.0`, `diff_mask=True`, `includeAA=True` into a fresh canvas of
`img1`'s size; the comparison passes when the mismatch count is `<= 0`; return
the diff image on failure and `None` on a pass. -/
def create_diff_image_or_none (img1 img2 : Image) : Option Image :=
  let img_diff := diffMask img1 img2
  let did_pass : Bool := decide (pixelmatchCount img1 img2 ≤ 0)
  if !did_pass then some img_diff else none

/-- Does `sub` occur as a contiguous run inside `l`?  (Python's `in` test on
strings, at the character-list level.) -/
def occursIn (sub : List Char) : List Char → Bool
  | [] => sub.isEmpty
  | c :: rest => sub.isPrefixOf (c :: rest) || occursIn sub rest

/-- Python `sub in s` (substring containment). -/
def containsStr (s sub : String) : Bool :=
  occursIn sub.data s.data

/-- Python `s.endswith(suffix)`, at the character-list level (the built-in
`String.endsWith` is not kernel-reducible, so the model uses list suffixes). -/
def endsWithStr (s suffix : String) : Bool :=
  suffix.data.isSuffixOf s.data

/-- The filename filter of the loop (`wpt.py` line 80): a candidate is excluded
when it ends with `-ref.html`, ends with `.tentative.html`, or contains the
substring `reference` anywhere in its path. -/
def isExcluded (file : String) : Bool :=
  endsWithStr file "-ref.html" || endsWithStr file ".tentative.html" ||
    containsStr file "reference"

/-- Modelled from the spec: `os.path.relpath(file, start)` restricted to its
use in the script, where every enumerated file lies strictly below the root
directory — it strips the `start + "/"` prefix.  (Files not below `start` do
not occur; the fallback branch returns the input unchanged.) -/
def relpath (file start : String) : String :=
  if (start ++ "/").data.isPrefixOf file.data then
    ⟨file.data.drop (start ++ "/").data.length⟩
  else file

/-- Python `rel_path.replace("\\", "_")`: the pattern is the single backslash
character, so the replacement is a character-wise map. -/
def replaceBackslash (s : String) : String :=
  ⟨s.data.map fun c => if c = '\\' then '_' else c⟩

/-- The test URL: `f"http://localhost:8000/{rel_path}"`. -/
def testUrl (wptDir file : String) : String :=
  "http://localhost:8000/" ++ relpath file wptDir

/-- The actual-screenshot artifact path: `f"out/{rel_path}-act.png"`. -/
def actPath (wptDir file : String) : String :=
  "out/" ++ relpath file wptDir ++ "-act.png"

/-- The expected-screenshot artifact path: `f"out/{rel_path}-ref.png"`. -/
def refPath (wptDir file : String) : String :=
  "out/" ++ relpath file wptDir ++ "-ref.png"

/-- The diff artifact path: the script first rebinds
`rel_path = rel_path.replace("\\", "_")` and then uses
`f"out/{rel_path}-diff.png"`. -/
def diffPath (wptDir file : String) : String :=
  "out/" ++ replaceBackslash (relpath file wptDir) ++ "-diff.png"

/-- The reference URL (`wpt.py` line 115): a literal string concatenation of
the fixed base onto the raw `href` attribute value; the commented-out
`urljoin` alternative is not what the code does. -/
def referenceUrl (href : String) : String :=
  "http://localhost:8000/css/css-flexbox/" ++ href

/-- Outcome of one renderer subprocess invocation, covering exactly the cases
the script distinguishes: normal zero exit, `subprocess.TimeoutExpired`, and
`subprocess.CalledProcessError` (non-zero exit under `check=True`). -/
inductive RenderResult where
  | ok
  | timeout
  | exitError
deriving DecidableEq

/-- An observable event of the loop, in chronological order: a logger line
(`logger.info` / `logger.error`; bare `print` calls are not logger lines), a
renderer invocation identified by its URL argument, an artifact write, and an
invocation of the image comparator `create_diff_image_or_none`. -/
inductive Event where
  | log (line : String)
  | invoke (url : String)
  | write (path : String)
  | compare
deriving DecidableEq

/-- The environment oracle for one run: what the outside world answers to each
effectful call the loop makes.
* `render url` — outcome of the renderer subprocess on `url`;
* `screenshotAfter url` — result of `Image.open` on the renderer's fixed
  output path right after a successful render of `url` (an `Except.error`
  models a malformed image or an I/O failure raising an uncaught exception);
* `saveImage path` — result of saving an image at `path` (with its `mkdir`;
  an error models an uncaught filesystem failure); re-opening a just-saved
  file is modelled as yielding the in-memory image back;
* `parseHtml file` — result of reading `file` and searching the soup for a
  `link` tag with `rel="match"`: `none` when no such tag exists, `some href`
  for its `href` attribute, and an `Except.error` for an uncaught read, parse
  or missing-attribute exception. -/
structure Env where
  render : String → RenderResult
  screenshotAfter : String → Except String Image
  saveImage : String → Except String Unit
  parseHtml : String → Except String (Option String)

/-- The body of the for-loop of `main` (`wpt.py` lines 76-150) for one
non-excluded file, returning the chronological event trace of that test case,
or the uncaught exception that aborts the run.  It mirrors the source: build
the three messages, derive `rel_path` and the URL, render the test page
(timeout / process failure caught as SKIP), save the actual screenshot, parse
the HTML for `link[rel=match]` (absent: SKIP), build the reference URL by
literal concatenation, render it (timeout / process failure caught as SKIP),
save the expected screenshot, compare, and log PASS or FAIL, saving the diff
image only on FAIL. -/
def processFile (wptDir : String) (env : Env) (file : String) :
    Except String (List Event) :=
  let fail_message := "FAIL: " ++ file
  let pass_message := "PASS: " ++ file
  let skip_message := "SKIP: " ++ file
  let rel_path := relpath file wptDir
  let url := "http://localhost:8000/" ++ rel_path
  match env.render url with
  | .timeout => .ok [.invoke url, .log skip_message]
  | .exitError => .ok [.invoke url, .log skip_message]
  | .ok =>
    let actual_out_path := "out/" ++ rel_path ++ "-act.png"
    match env.screenshotAfter url with
    | .error e => .error e
    | .ok actual_image =>
      match env.saveImage actual_out_path with
      | .error e => .error e
      | .ok _ =>
        match env.parseHtml file with
        | .error e => .error e
        | .ok none =>
          .ok [.invoke url, .write actual_out_path, .log skip_message]
        | .ok (some href_value) =>
          let reference_url := "http://localhost:8000/css/css-flexbox/" ++ href_value
          match env.render reference_url with
          | .timeout =>
            .ok [.invoke url, .write actual_out_path, .invoke reference_url,
                 .log skip_message]
          | .exitError =>
            .ok [.invoke url, .write actual_out_path, .invoke reference_url,
                 .log skip_message]
          | .ok =>
            let expected_out_path := "out/" ++ rel_path ++ "-ref.png"
            match env.screenshotAfter reference_url with
            | .error e => .error e
            | .ok expected_image =>
              match env.saveImage expected_out_path with
              | .error e => .error e
              | .ok _ =>
                let rel_path2 := replaceBackslash rel_path
                let diff_output_path := "out/" ++ rel_path2 ++ "-diff.png"
                match create_diff_image_or_none actual_image expected_image with
                | some _ =>
                  match env.saveImage diff_output_path with
                  | .error e => .error e
                  | .ok _ =>
                    .ok [.invoke url, .write actual_out_path,
                         .invoke reference_url, .write expected_out_path,
                         .compare, .write diff_output_path, .log fail_message]
                | none =>
                  .ok [.invoke url, .write actual_out_path,
                       .invoke reference_url, .write expected_out_path,
                       .compare, .log pass_message]

/-- The enumeration loop of `main`: iterate over the glob matches in order;
an excluded file is skipped by `continue` before any processing; an uncaught
exception in the body aborts the whole run.  The result pairs every processed
file with its event trace. -/
def mainLoop (wptDir : String) (env : Env) :
    List String → Except String (List (String × List Event))
  | [] => .ok []
  | file :: rest =>
    if isExcluded file then mainLoop wptDir env rest
    else
      match processFile wptDir env file with
      | .error e => .error e
      | .ok evs =>
        match mainLoop wptDir env rest with
        | .error e => .error e
        | .ok out => .ok ((file, evs) :: out)

/-- The logger lines of a trace, in order. -/
def logLines (evs : List Event) : List String :=
  evs.filterMap fun e => match e with | .log s => some s | _ => none

/-- The artifact paths written by a trace, in order. -/
def writtenPaths (evs : List Event) : List String :=
  evs.filterMap fun e => match e with | .write p => some p | _ => none

/-- A 1x1 black test image. -/
def imgBlack : Image := ⟨1, 1, [(0, 0, 0, 255)]⟩

/-- A 1x1 white test image. -/
def imgWhite : Image := ⟨1, 1, [(255, 255, 255, 255)]⟩

/-- A test environment whose renderer always times out. -/
def timeoutEnv : Env :=
  { render := fun _ => .timeout
    screenshotAfter := fun _ => .ok imgBlack
    saveImage := fun _ => .ok ()
    parseHtml := fun _ => .ok none }

/-- A test environment where both renders succeed with identical screenshots
and the test page declares `<link rel="match" href="foo-ref.html">`. -/
def passEnv : Env :=
  { render := fun _ => .ok
    screenshotAfter := fun _ => .ok imgBlack
    saveImage := fun _ => .ok ()
    parseHtml := fun _ => .ok (some "foo-ref.html") }

/-- A test environment where the reference page renders to a different
screenshot than the test page. -/
def failEnv : Env :=
  { passEnv with screenshotAfter := (fun u =>
      if u = "http://localhost:8000/css/css-flexbox/foo-ref.html" then .ok imgWhite
      else .ok imgBlack) }

/-- A test environment whose test page lacks any `link[rel=match]` element. -/
def noLinkEnv : Env :=
  { passEnv with parseHtml := fun _ => .ok none }

/-- A test environment where reading/parsing the test HTML raises. -/
def parseErrEnv : Env :=
  { passEnv with parseHtml := fun _ => .error "ParseError" }

end Wpt

namespace Wpt

/-! Shared string lemmas for reasoning about the path and URL concatenations
of the script. -/

theorem strData_append (a b : String) : (a ++ b).data = a.data ++ b.data := by
  cases a; cases b; rfl

theorem strAppend_assoc (a b c : String) : a ++ b ++ c = a ++ (b ++ c) := by
  cases a; cases b; cases c
  apply congrArg String.mk
  show (_ ++ _) ++ _ = _ ++ (_ ++ _)
  exact List.append_assoc _ _ _

theorem str_ext (a b : String) (h : a.data = b.data) : a = b := by
  cases a; cases b; exact congrArg String.mk h

theorem strAppend_cancel_left (a b c : String) (h : a ++ b = a ++ c) : b = c := by
  apply str_ext
  have h2 := congrArg String.data h
  rw [strData_append, strData_append] at h2
  exact List.append_cancel_left h2

theorem length_replaceBackslash (s : String) :
    (replaceBackslash s).data.length = s.data.length := by
  simp [replaceBackslash]

/-- For a file lying under the root directory, `relpath` strips the
`root + "/"` prefix. -/
theorem relpath_of_under (wptDir r : String) :
    relpath ((wptDir ++ "/") ++ r) wptDir = r := by
  have hp : (wptDir ++ "/").data.isPrefixOf ((wptDir ++ "/") ++ r).data = true := by
    rw [strData_append]
    exact List.isPrefixOf_iff_prefix.mpr (List.prefix_append _ _)
  apply str_ext
  simp only [relpath, hp, if_true]
  simp only [strData_append]
  exact List.drop_left _ _

/-- The actual- and expected-screenshot artifact paths of one test never
coincide. -/
theorem actPath_ne_refPath (wptDir file : String) :
    actPath wptDir file ≠ refPath wptDir file := by
  intro h
  have h2 := strAppend_cancel_left ("out/" ++ relpath file wptDir) _ _
    (by simpa [actPath, refPath, strAppend_assoc] using h)
  exact absurd h2 (by decide)

/-- The diff artifact path of one test never coincides with its
actual-screenshot path. -/
theorem diffPath_ne_actPath (wptDir file : String) :
    diffPath wptDir file ≠ actPath wptDir file := by
  intro h
  have hl := congrArg List.length (congrArg String.data h)
  simp only [diffPath, actPath, strData_append, List.length_append,
    length_replaceBackslash, List.length_cons, List.length_nil] at hl
  omega

/-- The diff artifact path of one test never coincides with its
expected-screenshot path. -/
theorem diffPath_ne_refPath (wptDir file : String) :
    diffPath wptDir file ≠ refPath wptDir file := by
  intro h
  have hl := congrArg List.length (congrArg String.data h)
  simp only [diffPath, refPath, strData_append, List.length_append,
    length_replaceBackslash, List.length_cons, List.length_nil] at hl
  omega

/-- Zipping a list with itself yields no position satisfying a
disequality of components. -/
theorem countP_zip_self (l : List Pixel) :
    (l.zip l).countP (fun p => decide (p.1 ≠ p.2)) = 0 := by
  induction l with
  | nil => rfl
  | cons a t ih =>
    rw [List.zip_cons_cons, List.countP_cons, ih]
    simp

/-- A log line of the form `tag ++ file` carries the file's path relative to
the root as a suffix. -/
theorem carries_relpath (tag wptDir r : String) :
    ∃ p, tag ++ ((wptDir ++ "/") ++ r) = p ++ relpath ((wptDir ++ "/") ++ r) wptDir :=
  ⟨tag ++ (wptDir ++ "/"), by rw [relpath_of_under, ← strAppend_assoc]⟩

/-- C1: the comparison reports Equal (`create_diff_image_or_none` returns
`none`) iff the pixel-matching routine — run with threshold 0, anti-aliased
pixels included, mask-only diff — reports a mismatched-pixel count of zero;
for identical images the count is zero, the comparison is Equal, and in the
pipeline a pair of identical screenshots logs PASS and writes no diff
artifact. -/
theorem c1_equal_iff_zero_mismatches :
    (∀ img1 img2 : Image,
      create_diff_image_or_none img1 img2 = none ↔ pixelmatchCount img1 img2 = 0) ∧
    (∀ img : Image, pixelmatchCount img img = 0 ∧
      create_diff_image_or_none img img = none) ∧
    (∀ (wptDir file href : String) (env : Env) (img : Image),
      env.render (testUrl wptDir file) = .ok →
      env.screenshotAfter (testUrl wptDir file) = .ok img →
      env.saveImage (actPath wptDir file) = .ok () →
      env.parseHtml file = .ok (some href) →
      env.render (referenceUrl href) = .ok →
      env.screenshotAfter (referenceUrl href) = .ok img →
      env.saveImage (refPath wptDir file) = .ok () →
      processFile wptDir env file =
        .ok [.invoke (testUrl wptDir file), .write (actPath wptDir file),
             .invoke (referenceUrl href), .write (refPath wptDir file),
             .compare, .log ("PASS: " ++ file)] ∧
      Event.write (diffPath wptDir file) ∉
        [Event.invoke (testUrl wptDir file), Event.write (actPath wptDir file),
         Event.invoke (referenceUrl href), Event.write (refPath wptDir file),
         Event.compare, Event.log ("PASS: " ++ file)]) := by
  have hiff : ∀ img1 img2 : Image,
      create_diff_image_or_none img1 img2 = none ↔ pixelmatchCount img1 img2 = 0 := by
    intro img1 img2
    simp only [create_diff_image_or_none, Nat.le_zero]
    by_cases h : pixelmatchCount img1 img2 = 0
    · simp [h]
    · simp [h]
  have hself : ∀ img : Image, pixelmatchCount img img = 0 := by
    intro img
    exact countP_zip_self img.data
  refine ⟨hiff, fun img => ⟨hself img, (hiff img img).mpr (hself img)⟩, ?_⟩
  intro wptDir file href env img h1 h2 h3 h4 h5 h6 h7
  have hcd : create_diff_image_or_none img img = none := (hiff img img).mpr (hself img)
  simp only [testUrl] at h1 h2
  simp only [actPath] at h3
  simp only [referenceUrl] at h5 h6
  simp only [refPath] at h7
  constructor
  · simp only [processFile, h1, h2, h3, h4, h5, h6, h7, hcd, testUrl, actPath,
      referenceUrl, refPath]
  · simp [diffPath_ne_actPath wptDir file, diffPath_ne_refPath wptDir file]

/-- C1 witness: a concrete run where both screenshots are the same black
pixel; the case passes and no diff artifact appears in its trace. -/
theorem c1_witness :
    processFile "wpt" passEnv "wpt/css/css-flexbox/foo.html" =
      .ok [.invoke (testUrl "wpt" "wpt/css/css-flexbox/foo.html"),
           .write (actPath "wpt" "wpt/css/css-flexbox/foo.html"),
           .invoke (referenceUrl "foo-ref.html"),
           .write (refPath "wpt" "wpt/css/css-flexbox/foo.html"),
           .compare, .log ("PASS: " ++ "wpt/css/css-flexbox/foo.html")] ∧
    Event.write (diffPath "wpt" "wpt/css/css-flexbox/foo.html") ∉
      [Event.invoke (testUrl "wpt" "wpt/css/css-flexbox/foo.html"),
       Event.write (actPath "wpt" "wpt/css/css-flexbox/foo.html"),
       Event.invoke (referenceUrl "foo-ref.html"),
       Event.write (refPath "wpt" "wpt/css/css-flexbox/foo.html"),
       Event.compare, Event.log ("PASS: " ++ "wpt/css/css-flexbox/foo.html")] :=
  c1_equal_iff_zero_mismatches.2.2 "wpt" "wpt/css/css-flexbox/foo.html"
    "foo-ref.html" passEnv imgBlack rfl rfl rfl rfl rfl rfl rfl

/-- C2: the enumeration loop never processes a candidate whose name ends in
`-ref.html` or `.tentative.html` or whose path contains `reference`; the
processed files are exactly the non-excluded glob matches in order, and when
the glob results are duplicate-free every non-excluded match is visited
exactly once. -/
theorem c2_filter_excludes_and_visits_once (wptDir : String) (env : Env)
    (files : List String) (results : List (String × List Event))
    (h : mainLoop wptDir env files = .ok results) :
    results.map Prod.fst = files.filter (fun f => !isExcluded f) ∧
    (∀ f, (endsWithStr f "-ref.html" || endsWithStr f ".tentative.html" ||
        containsStr f "reference") = true → f ∉ results.map Prod.fst) ∧
    (∀ f, f ∈ files → isExcluded f = false → files.Nodup →
      (results.map Prod.fst).count f = 1) := by
  have hmap : results.map Prod.fst = files.filter (fun f => !isExcluded f) := by
    induction files generalizing results with
    | nil =>
      simp only [mainLoop, Except.ok.injEq] at h
      subst h
      rfl
    | cons file rest ih =>
      simp only [mainLoop] at h
      by_cases hx : isExcluded file
      · rw [if_pos hx] at h
        rw [List.filter_cons_of_neg (by simp [hx]), ih _ h]
      · rw [if_neg hx] at h
        cases hp : processFile wptDir env file with
        | error e => rw [hp] at h; exact absurd h (by simp)
        | ok evs =>
          rw [hp] at h
          cases hm : mainLoop wptDir env rest with
          | error e => rw [hm] at h; exact absurd h (by simp)
          | ok out =>
            rw [hm] at h
            simp only [Except.ok.injEq] at h
            subst h
            rw [List.filter_cons_of_pos (by simp [hx])]
            simp [ih _ hm]
  refine ⟨hmap, ?_, ?_⟩
  · intro f hf hmem
    rw [hmap] at hmem
    have hx : (!isExcluded f) = true := (List.mem_filter.mp hmem).2
    have hT : isExcluded f = true := hf
    rw [hT] at hx
    exact absurd hx (by decide)
  · intro f hf hx hnd
    rw [hmap]
    exact List.count_eq_one_of_mem (hnd.filter _)
      (List.mem_filter.mpr ⟨hf, by simp [hx]⟩)

/-- C2 witness: a two-element enumeration containing one reference file and
one real test; only the real test is processed, exactly once. -/
theorem c2_witness :
    ([("wpt/css/css-flexbox/foo.html",
        [Event.invoke "http://localhost:8000/css/css-flexbox/foo.html",
         Event.log "SKIP: wpt/css/css-flexbox/foo.html"])].map Prod.fst =
      ["wpt/css/css-flexbox/foo-ref.html",
       "wpt/css/css-flexbox/foo.html"].filter (fun f => !isExcluded f)) ∧
    ([("wpt/css/css-flexbox/foo.html",
        [Event.invoke "http://localhost:8000/css/css-flexbox/foo.html",
         Event.log "SKIP: wpt/css/css-flexbox/foo.html"])].map
        Prod.fst).count "wpt/css/css-flexbox/foo.html" = 1 := by
  have hc := c2_filter_excludes_and_visits_once "wpt" timeoutEnv
    ["wpt/css/css-flexbox/foo-ref.html", "wpt/css/css-flexbox/foo.html"]
    [("wpt/css/css-flexbox/foo.html",
      [Event.invoke "http://localhost:8000/css/css-flexbox/foo.html",
       Event.log "SKIP: wpt/css/css-flexbox/foo.html"])] rfl
  exact ⟨hc.1, hc.2.2 "wpt/css/css-flexbox/foo.html" (by decide) (by decide)
    (by decide)⟩

/-- C3: a renderer invocation that times out or exits non-zero (either the
test render or the reference render) makes the case SKIP with exactly one
log line and no retry of the invocation, and the loop then proceeds to the
next enumerated file without aborting the run. -/
theorem c3_render_failure_skips (wptDir : String) (env : Env) (file : String)
    (rest : List String) (res : List (String × List Event)) (evs : List Event)
    (href : String) (img : Image) :
    ((env.render (testUrl wptDir file) = .timeout ∨
      env.render (testUrl wptDir file) = .exitError) →
      processFile wptDir env file =
        .ok [.invoke (testUrl wptDir file), .log ("SKIP: " ++ file)]) ∧
    (env.render (testUrl wptDir file) = .ok →
      env.screenshotAfter (testUrl wptDir file) = .ok img →
      env.saveImage (actPath wptDir file) = .ok () →
      env.parseHtml file = .ok (some href) →
      (env.render (referenceUrl href) = .timeout ∨
       env.render (referenceUrl href) = .exitError) →
      processFile wptDir env file =
        .ok [.invoke (testUrl wptDir file), .write (actPath wptDir file),
             .invoke (referenceUrl href), .log ("SKIP: " ++ file)]) ∧
    (isExcluded file = false → processFile wptDir env file = .ok evs →
      mainLoop wptDir env rest = .ok res →
      mainLoop wptDir env (file :: rest) = .ok ((file, evs) :: res)) := by
  refine ⟨?_, ?_, ?_⟩
  · intro h1
    rcases h1 with h1 | h1 <;>
      simp only [testUrl] at h1 <;>
      simp only [processFile, h1, testUrl]
  · intro h1 h2 h3 h4 h5
    simp only [testUrl] at h1 h2
    simp only [actPath] at h3
    simp only [referenceUrl] at h5
    rcases h5 with h5 | h5 <;>
      simp only [processFile, h1, h2, h3, h4, h5, testUrl, actPath, referenceUrl]
  · intro hx hp hm
    simp only [mainLoop, hx, if_neg, hp, hm]
    simp

/-- C3 witness: a renderer that always times out makes a concrete case SKIP
and the loop continue to the end. -/
theorem c3_witness :
    processFile "wpt" timeoutEnv "wpt/css/css-flexbox/foo.html" =
      .ok [.invoke (testUrl "wpt" "wpt/css/css-flexbox/foo.html"),
           .log ("SKIP: " ++ "wpt/css/css-flexbox/foo.html")] ∧
    mainLoop "wpt" timeoutEnv ["wpt/css/css-flexbox/foo.html"] =
      .ok [("wpt/css/css-flexbox/foo.html",
        [Event.invoke "http://localhost:8000/css/css-flexbox/foo.html",
         Event.log "SKIP: wpt/css/css-flexbox/foo.html"])] :=
  ⟨(c3_render_failure_skips "wpt" timeoutEnv "wpt/css/css-flexbox/foo.html"
      [] [] [] "x" imgBlack).1 (Or.inl rfl),
   (c3_render_failure_skips "wpt" timeoutEnv "wpt/css/css-flexbox/foo.html"
      [] []
      [Event.invoke "http://localhost:8000/css/css-flexbox/foo.html",
       Event.log "SKIP: wpt/css/css-flexbox/foo.html"] "x" imgBlack).2.2
     (by decide) rfl rfl⟩

/-- C10: for a file excluded by the filename filter, the run behaves exactly
as if the file were absent from the enumeration: no log line, no renderer
invocation, no artifact write. -/
theorem c10_excluded_file_no_action (wptDir : String) (env : Env)
    (file : String) (rest : List String) (h : isExcluded file = true) :
    mainLoop wptDir env (file :: rest) = mainLoop wptDir env rest := by
  simp [mainLoop, h]

/-- C10 witness: dropping a concrete `-ref.html` candidate leaves the run
unchanged. -/
theorem c10_witness :
    mainLoop "wpt" timeoutEnv ["wpt/css/css-flexbox/foo-ref.html"] =
      mainLoop "wpt" timeoutEnv [] :=
  c10_excluded_file_no_action "wpt" timeoutEnv "wpt/css/css-flexbox/foo-ref.html"
    [] (by decide)

/-- C4: a test case whose HTML has no `link[rel=match]` element is classified
SKIP — its trace is render, save of the actual screenshot, then one SKIP log
line — and the image comparator is never invoked for it. -/
theorem c4_missing_link_skips_without_compare (wptDir : String) (env : Env)
    (file : String) (img : Image)
    (h1 : env.render (testUrl wptDir file) = .ok)
    (h2 : env.screenshotAfter (testUrl wptDir file) = .ok img)
    (h3 : env.saveImage (actPath wptDir file) = .ok ())
    (h4 : env.parseHtml file = .ok none) :
    processFile wptDir env file =
      .ok [.invoke (testUrl wptDir file), .write (actPath wptDir file),
           .log ("SKIP: " ++ file)] ∧
    Event.compare ∉
      [Event.invoke (testUrl wptDir file), Event.write (actPath wptDir file),
       Event.log ("SKIP: " ++ file)] ∧
    logLines
      [Event.invoke (testUrl wptDir file), Event.write (actPath wptDir file),
       Event.log ("SKIP: " ++ file)] = ["SKIP: " ++ file] := by
  refine ⟨?_, by simp, by simp [logLines]⟩
  simp only [testUrl] at h1 h2
  simp only [actPath] at h3
  simp only [processFile, h1, h2, h3, h4, testUrl, actPath]

/-- C4 witness: a concrete environment whose page has no matching link
element. -/
theorem c4_witness :
    processFile "wpt" noLinkEnv "wpt/css/css-flexbox/foo.html" =
      .ok [.invoke (testUrl "wpt" "wpt/css/css-flexbox/foo.html"),
           .write (actPath "wpt" "wpt/css/css-flexbox/foo.html"),
           .log ("SKIP: " ++ "wpt/css/css-flexbox/foo.html")] ∧
    Event.compare ∉
      [Event.invoke (testUrl "wpt" "wpt/css/css-flexbox/foo.html"),
       Event.write (actPath "wpt" "wpt/css/css-flexbox/foo.html"),
       Event.log ("SKIP: " ++ "wpt/css/css-flexbox/foo.html")] ∧
    logLines
      [Event.invoke (testUrl "wpt" "wpt/css/css-flexbox/foo.html"),
       Event.write (actPath "wpt" "wpt/css/css-flexbox/foo.html"),
       Event.log ("SKIP: " ++ "wpt/css/css-flexbox/foo.html")] =
      ["SKIP: " ++ "wpt/css/css-flexbox/foo.html"] :=
  c4_missing_link_skips_without_compare "wpt" noLinkEnv
    "wpt/css/css-flexbox/foo.html" imgBlack rfl rfl rfl rfl

/-- C5: the reference URL is the literal concatenation of the fixed base
`http://localhost:8000/css/css-flexbox/` with the raw `href` value; since
`referenceUrl` takes only the `href`, the invoked reference URL is
independent of the test file's own directory, and no relative-URL
resolution is applied. -/
theorem c5_reference_url_literal_concat (wptDir : String) (env : Env)
    (file href : String) (img : Image) (evs : List Event)
    (h1 : env.render (testUrl wptDir file) = .ok)
    (h2 : env.screenshotAfter (testUrl wptDir file) = .ok img)
    (h3 : env.saveImage (actPath wptDir file) = .ok ())
    (h4 : env.parseHtml file = .ok (some href))
    (h5 : processFile wptDir env file = .ok evs) :
    Event.invoke (referenceUrl href) ∈ evs ∧
    referenceUrl href = "http://localhost:8000/css/css-flexbox/" ++ href := by
  refine ⟨?_, rfl⟩
  simp only [testUrl] at h1 h2
  simp only [actPath] at h3
  simp only [processFile, h1, h2, h3, h4] at h5
  simp only [referenceUrl]
  repeat' split at h5
  all_goals first
    | exact Except.noConfusion h5
    | (injection h5 with h5; subst h5; simp)

/-- C5 witness: a concrete passing case invokes exactly the concatenated
reference URL. -/
theorem c5_witness :
    Event.invoke (referenceUrl "foo-ref.html") ∈
      [Event.invoke "http://localhost:8000/css/css-flexbox/foo.html",
       Event.write "out/css/css-flexbox/foo.html-act.png",
       Event.invoke "http://localhost:8000/css/css-flexbox/foo-ref.html",
       Event.write "out/css/css-flexbox/foo.html-ref.png",
       Event.compare,
       Event.log "PASS: wpt/css/css-flexbox/foo.html"] ∧
    referenceUrl "foo-ref.html" =
      "http://localhost:8000/css/css-flexbox/" ++ "foo-ref.html" :=
  c5_reference_url_literal_concat "wpt" passEnv "wpt/css/css-flexbox/foo.html"
    "foo-ref.html" imgBlack
    [Event.invoke "http://localhost:8000/css/css-flexbox/foo.html",
     Event.write "out/css/css-flexbox/foo.html-act.png",
     Event.invoke "http://localhost:8000/css/css-flexbox/foo-ref.html",
     Event.write "out/css/css-flexbox/foo.html-ref.png",
     Event.compare,
     Event.log "PASS: wpt/css/css-flexbox/foo.html"] rfl rfl rfl rfl rfl

/-- C6 counterexample: on a POSIX relative path the separators are forward
slashes, which `rel_path.replace("\\", "_")` leaves untouched; a concrete
failing case writes its diff image to the nested path
`out/css/css-flexbox/foo.html-diff.png` and not to the flattened
`out/css_css-flexbox_foo.html-diff.png` the claim expects. -/
theorem c6_counterexample :
    processFile "wpt" failEnv "wpt/css/css-flexbox/foo.html" =
      .ok [Event.invoke "http://localhost:8000/css/css-flexbox/foo.html",
           Event.write "out/css/css-flexbox/foo.html-act.png",
           Event.invoke "http://localhost:8000/css/css-flexbox/foo-ref.html",
           Event.write "out/css/css-flexbox/foo.html-ref.png",
           Event.compare,
           Event.write "out/css/css-flexbox/foo.html-diff.png",
           Event.log "FAIL: wpt/css/css-flexbox/foo.html"] ∧
    ("out/css/css-flexbox/foo.html-diff.png" : String) ≠
      "out/css_css-flexbox_foo.html-diff.png" ∧
    Event.write "out/css_css-flexbox_foo.html-diff.png" ∉
      [Event.invoke "http://localhost:8000/css/css-flexbox/foo.html",
       Event.write "out/css/css-flexbox/foo.html-act.png",
       Event.invoke "http://localhost:8000/css/css-flexbox/foo-ref.html",
       Event.write "out/css/css-flexbox/foo.html-ref.png",
       Event.compare,
       Event.write "out/css/css-flexbox/foo.html-diff.png",
       Event.log "FAIL: wpt/css/css-flexbox/foo.html"] :=
  ⟨rfl, by decide, by decide⟩

/-- C6 amended: when the two screenshots differ in at least one pixel, the
run logs exactly one FAIL line and persists the diff image to the path
derived from the relative test path by replacing backslashes (Windows path
separators) with underscores; forward slashes are left unchanged, so on
POSIX paths the diff artifact keeps the nested directory layout. -/
theorem c6_fail_logs_and_writes_diff (wptDir : String) (env : Env)
    (file href : String) (a b : Image)
    (h1 : env.render (testUrl wptDir file) = .ok)
    (h2 : env.screenshotAfter (testUrl wptDir file) = .ok a)
    (h3 : env.saveImage (actPath wptDir file) = .ok ())
    (h4 : env.parseHtml file = .ok (some href))
    (h5 : env.render (referenceUrl href) = .ok)
    (h6 : env.screenshotAfter (referenceUrl href) = .ok b)
    (h7 : env.saveImage (refPath wptDir file) = .ok ())
    (h8 : env.saveImage (diffPath wptDir file) = .ok ())
    (h9 : pixelmatchCount a b ≠ 0) :
    processFile wptDir env file =
      .ok [.invoke (testUrl wptDir file), .write (actPath wptDir file),
           .invoke (referenceUrl href), .write (refPath wptDir file),
           .compare, .write (diffPath wptDir file), .log ("FAIL: " ++ file)] ∧
    logLines
      [Event.invoke (testUrl wptDir file), Event.write (actPath wptDir file),
       Event.invoke (referenceUrl href), Event.write (refPath wptDir file),
       Event.compare, Event.write (diffPath wptDir file),
       Event.log ("FAIL: " ++ file)] = ["FAIL: " ++ file] ∧
    diffPath wptDir file =
      "out/" ++ replaceBackslash (relpath file wptDir) ++ "-diff.png" := by
  refine ⟨?_, by simp [logLines], rfl⟩
  have hcd : create_diff_image_or_none a b = some (diffMask a b) := by
    simp [create_diff_image_or_none, Nat.le_zero, h9]
  simp only [testUrl] at h1 h2
  simp only [actPath] at h3
  simp only [referenceUrl] at h5 h6
  simp only [refPath] at h7
  simp only [diffPath] at h8
  simp only [processFile, h1, h2, h3, h4, h5, h6, h7, h8, hcd, testUrl,
    actPath, referenceUrl, refPath, diffPath]

/-- C6 witness: a concrete failing case logs FAIL and writes the diff to the
backslash-normalized (here: unchanged) relative path. -/
theorem c6_witness :
    processFile "wpt" failEnv "wpt/css/css-flexbox/foo.html" =
      .ok [.invoke (testUrl "wpt" "wpt/css/css-flexbox/foo.html"),
           .write (actPath "wpt" "wpt/css/css-flexbox/foo.html"),
           .invoke (referenceUrl "foo-ref.html"),
           .write (refPath "wpt" "wpt/css/css-flexbox/foo.html"),
           .compare, .write (diffPath "wpt" "wpt/css/css-flexbox/foo.html"),
           .log ("FAIL: " ++ "wpt/css/css-flexbox/foo.html")] ∧
    logLines
      [Event.invoke (testUrl "wpt" "wpt/css/css-flexbox/foo.html"),
       Event.write (actPath "wpt" "wpt/css/css-flexbox/foo.html"),
       Event.invoke (referenceUrl "foo-ref.html"),
       Event.write (refPath "wpt" "wpt/css/css-flexbox/foo.html"),
       Event.compare,
       Event.write (diffPath "wpt" "wpt/css/css-flexbox/foo.html"),
       Event.log ("FAIL: " ++ "wpt/css/css-flexbox/foo.html")] =
      ["FAIL: " ++ "wpt/css/css-flexbox/foo.html"] ∧
    diffPath "wpt" "wpt/css/css-flexbox/foo.html" =
      "out/" ++ replaceBackslash (relpath "wpt/css/css-flexbox/foo.html" "wpt") ++
        "-diff.png" :=
  c6_fail_logs_and_writes_diff "wpt" failEnv "wpt/css/css-flexbox/foo.html"
    "foo-ref.html" imgBlack imgWhite rfl rfl rfl rfl rfl rfl rfl rfl
    (by decide)

set_option linter.unusedTactic false in
/-- C7: every processed (non-excluded) case that completes without an
uncaught exception emits exactly one logger line, classified PASS, FAIL or
SKIP; the line is built from the file's path and so carries the test's
relative path as a suffix. -/
theorem c7_one_log_line_per_processed_case (wptDir r : String) (env : Env)
    (evs : List Event)
    (h : processFile wptDir env ((wptDir ++ "/") ++ r) = .ok evs) :
    ∃ line, logLines evs = [line] ∧
      (line = "PASS: " ++ ((wptDir ++ "/") ++ r) ∨
       line = "FAIL: " ++ ((wptDir ++ "/") ++ r) ∨
       line = "SKIP: " ++ ((wptDir ++ "/") ++ r)) ∧
      ∃ p, line = p ++ relpath ((wptDir ++ "/") ++ r) wptDir := by
  simp only [processFile] at h
  repeat' split at h
  all_goals first
    | exact Except.noConfusion h
    | (injection h with h; subst h;
       refine ⟨"SKIP: " ++ ((wptDir ++ "/") ++ r), ?_,
         Or.inr (Or.inr rfl), carries_relpath "SKIP: " wptDir r⟩;
       simp [logLines]; done)
    | (injection h with h; subst h;
       refine ⟨"PASS: " ++ ((wptDir ++ "/") ++ r), ?_,
         Or.inl rfl, carries_relpath "PASS: " wptDir r⟩;
       simp [logLines]; done)
    | (injection h with h; subst h;
       refine ⟨"FAIL: " ++ ((wptDir ++ "/") ++ r), ?_,
         Or.inr (Or.inl rfl), carries_relpath "FAIL: " wptDir r⟩;
       simp [logLines]; done)

/-- C7 witness: the concrete passing case emits exactly one PASS line. -/
theorem c7_witness :
    ∃ line,
      logLines
        [Event.invoke "http://localhost:8000/css/css-flexbox/foo.html",
         Event.write "out/css/css-flexbox/foo.html-act.png",
         Event.invoke "http://localhost:8000/css/css-flexbox/foo-ref.html",
         Event.write "out/css/css-flexbox/foo.html-ref.png",
         Event.compare,
         Event.log "PASS: wpt/css/css-flexbox/foo.html"] = [line] ∧
      (line = "PASS: " ++ (("wpt" ++ "/") ++ "css/css-flexbox/foo.html") ∨
       line = "FAIL: " ++ (("wpt" ++ "/") ++ "css/css-flexbox/foo.html") ∨
       line = "SKIP: " ++ (("wpt" ++ "/") ++ "css/css-flexbox/foo.html")) ∧
      ∃ p, line = p ++
        relpath (("wpt" ++ "/") ++ "css/css-flexbox/foo.html") "wpt" :=
  c7_one_log_line_per_processed_case "wpt" "css/css-flexbox/foo.html" passEnv
    [Event.invoke "http://localhost:8000/css/css-flexbox/foo.html",
     Event.write "out/css/css-flexbox/foo.html-act.png",
     Event.invoke "http://localhost:8000/css/css-flexbox/foo-ref.html",
     Event.write "out/css/css-flexbox/foo.html-ref.png",
     Event.compare,
     Event.log "PASS: wpt/css/css-flexbox/foo.html"] rfl

/-- C8: the only per-case errors the loop handles are renderer timeout and
renderer process failure (and the missing-reference SKIP); an HTML read or
parse failure, a malformed actual screenshot, or a filesystem failure while
saving propagates uncaught and aborts the entire run, while a timeout is
caught and the case completes as a SKIP. -/
theorem c8_unhandled_errors_abort_run (wptDir : String) (env : Env)
    (file e : String) (rest : List String) (img : Image) :
    (env.render (testUrl wptDir file) = .ok →
     env.screenshotAfter (testUrl wptDir file) = .ok img →
     env.saveImage (actPath wptDir file) = .ok () →
     env.parseHtml file = .error e →
     isExcluded file = false →
     processFile wptDir env file = .error e ∧
       mainLoop wptDir env (file :: rest) = .error e) ∧
    (env.render (testUrl wptDir file) = .ok →
     env.screenshotAfter (testUrl wptDir file) = .error e →
     processFile wptDir env file = .error e) ∧
    (env.render (testUrl wptDir file) = .ok →
     env.screenshotAfter (testUrl wptDir file) = .ok img →
     env.saveImage (actPath wptDir file) = .error e →
     processFile wptDir env file = .error e) ∧
    ((env.render (testUrl wptDir file) = .timeout ∨
      env.render (testUrl wptDir file) = .exitError) →
     ∃ evs, processFile wptDir env file = .ok evs) := by
  refine ⟨?_, ?_, ?_, ?_⟩
  · intro h1 h2 h3 h4 hx
    simp only [testUrl] at h1 h2
    simp only [actPath] at h3
    have hpf : processFile wptDir env file = .error e := by
      simp only [processFile, h1, h2, h3, h4]
    exact ⟨hpf, by simp [mainLoop, hx, hpf]⟩
  · intro h1 h2
    simp only [testUrl] at h1 h2
    simp only [processFile, h1, h2]
  · intro h1 h2 h3
    simp only [testUrl] at h1 h2
    simp only [actPath] at h3
    simp only [processFile, h1, h2, h3]
  · intro h1
    rcases h1 with h1 | h1 <;> simp only [testUrl] at h1 <;>
      exact ⟨[.invoke ("http://localhost:8000/" ++ relpath file wptDir),
              .log ("SKIP: " ++ file)], by simp only [processFile, h1]⟩

/-- C8 witness: a concrete run where parsing the test HTML raises aborts the
whole run with that error, and the excluded-or-not loop propagates it. -/
theorem c8_witness :
    processFile "wpt" parseErrEnv "wpt/css/css-flexbox/foo.html" =
      .error "ParseError" ∧
    mainLoop "wpt" parseErrEnv ["wpt/css/css-flexbox/foo.html"] =
      .error "ParseError" :=
  (c8_unhandled_errors_abort_run "wpt" parseErrEnv "wpt/css/css-flexbox/foo.html"
    "ParseError" [] imgBlack).1 rfl rfl rfl rfl (by decide)

/-- C9: in the missing-reference SKIP case the actual screenshot has already
been written to `out/<relpath>-act.png` before the SKIP line is logged (the
write event precedes the log event in the trace), that artifact is the only
one written, and neither the expected-screenshot nor the diff artifact path
appears in the trace. -/
theorem c9_act_artifact_persists_on_skip (wptDir : String) (env : Env)
    (file : String) (img : Image)
    (h1 : env.render (testUrl wptDir file) = .ok)
    (h2 : env.screenshotAfter (testUrl wptDir file) = .ok img)
    (h3 : env.saveImage (actPath wptDir file) = .ok ())
    (h4 : env.parseHtml file = .ok none) :
    processFile wptDir env file =
      .ok [.invoke (testUrl wptDir file), .write (actPath wptDir file),
           .log ("SKIP: " ++ file)] ∧
    writtenPaths
      [Event.invoke (testUrl wptDir file), Event.write (actPath wptDir file),
       Event.log ("SKIP: " ++ file)] = [actPath wptDir file] ∧
    Event.write (refPath wptDir file) ∉
      [Event.invoke (testUrl wptDir file), Event.write (actPath wptDir file),
       Event.log ("SKIP: " ++ file)] ∧
    Event.write (diffPath wptDir file) ∉
      [Event.invoke (testUrl wptDir file), Event.write (actPath wptDir file),
       Event.log ("SKIP: " ++ file)] := by
  refine ⟨?_, by simp [writtenPaths], ?_, ?_⟩
  · simp only [testUrl] at h1 h2
    simp only [actPath] at h3
    simp only [processFile, h1, h2, h3, h4, testUrl, actPath]
  · simp [Ne.symm (actPath_ne_refPath wptDir file)]
  · simp [diffPath_ne_actPath wptDir file]

/-- C9 witness: the concrete missing-link case keeps exactly the actual
screenshot artifact. -/
theorem c9_witness :
    processFile "wpt" noLinkEnv "wpt/css/css-flexbox/foo.html" =
      .ok [.invoke (testUrl "wpt" "wpt/css/css-flexbox/foo.html"),
           .write (actPath "wpt" "wpt/css/css-flexbox/foo.html"),
           .log ("SKIP: " ++ "wpt/css/css-flexbox/foo.html")] ∧
    writtenPaths
      [Event.invoke (testUrl "wpt" "wpt/css/css-flexbox/foo.html"),
       Event.write (actPath "wpt" "wpt/css/css-flexbox/foo.html"),
       Event.log ("SKIP: " ++ "wpt/css/css-flexbox/foo.html")] =
      [actPath "wpt" "wpt/css/css-flexbox/foo.html"] ∧
    Event.write (refPath "wpt" "wpt/css/css-flexbox/foo.html") ∉
      [Event.invoke (testUrl "wpt" "wpt/css/css-flexbox/foo.html"),
       Event.write (actPath "wpt" "wpt/css/css-flexbox/foo.html"),
       Event.log ("SKIP: " ++ "wpt/css/css-flexbox/foo.html")] ∧
    Event.write (diffPath "wpt" "wpt/css/css-flexbox/foo.html") ∉
      [Event.invoke (testUrl "wpt" "wpt/css/css-flexbox/foo.html"),
       Event.write (actPath "wpt" "wpt/css/css-flexbox/foo.html"),
       Event.log ("SKIP: " ++ "wpt/css/css-flexbox/foo.html")] :=
  c9_act_artifact_persists_on_skip "wpt" noLinkEnv
    "wpt/css/css-flexbox/foo.html" imgBlack rfl rfl rfl rfl

end Wpt
